import Mathlib

/-!
Verification of the Project Siren session registry, notification broker and
telemetry ingestion pipeline.

Shallow embedding of the relevant source files:
- src/lib/sessions.ts (registry, broker, profile builders, IP geolocation)
- src/app/api/media/route.ts (telemetry ingestion endpoint)
- src/app/api/events/route.ts (push-stream endpoint)
- src/app/api/track/route.ts (profile submission endpoint)
- src/dns-server.js, global stream manager portion (continuous capture loop)

Effects are made explicit: the ambient environment (timestamps, generated
session ids, timezone) is passed as an `Env` value, the external geolocation
HTTP fetch as an oracle argument, and every push connection records the list
of messages successfully enqueued to it.
-/

namespace Siren

/-- Runtime JSON values as parsed from a request body. JavaScript property
access that yields `undefined` is modelled by `Option` at use sites. -/
inductive Json where
  | null
  | bool (b : Bool)
  | num (n : Int)
  | str (s : String)
  | arr (elems : List Json)
  | obj (fields : List (String × Json))

/-- JavaScript property read `v[k]` on a parsed JSON value: `none` models
`undefined` (absent key, or property access on a primitive). Later duplicate
keys win, as in `JSON.parse`. -/
def getProp : Json → String → Option Json
  | .obj kvs, k => (kvs.reverse.find? (fun kv => kv.1 == k)).map (fun kv => kv.2)
  | _, _ => none

/-- Property read on a possibly-undefined value (used only behind truthiness
guards, where JavaScript would not throw). -/
def propOf (v : Option Json) (k : String) : Option Json :=
  v.bind (fun j => getProp j k)

/-- JavaScript truthiness; `none` (undefined) is falsy. -/
def truthy : Option Json → Bool
  | none => false
  | some .null => false
  | some (.bool b) => b
  | some (.num n) => decide (n ≠ 0)
  | some (.str s) => decide (s ≠ "")
  | some (.arr _) => true
  | some (.obj _) => true

/-- JavaScript `x ?? undefined`: `null` and `undefined` both become
`undefined`; every other value passes through unchanged. -/
def nullishToUndef : Option Json → Option Json
  | none => none
  | some .null => none
  | some v => some v

/-- JavaScript `typeof x === 'string' ? x : undefined`. -/
def asString : Option Json → Option String
  | some (.str s) => some s
  | _ => none

/-- Escaping of one character inside a serialized JSON string. -/
def jsonEscapeChar (c : Char) : String :=
  if c = '\"' then "\\\""
  else if c = '\\' then "\\\\"
  else if c = '\n' then "\\n"
  else String.singleton c

/-- Escaping of a string for JSON serialization. -/
def jsonEscape (s : String) : String :=
  String.join (s.data.map jsonEscapeChar)

mutual

/-- Embedding of `JSON.stringify` on runtime JSON values. -/
def Json.stringify : Json → String
  | .null => "null"
  | .bool b => if b then "true" else "false"
  | .num n => toString n
  | .str s => "\"" ++ jsonEscape s ++ "\""
  | .arr xs => "[" ++ stringifyElems xs ++ "]"
  | .obj kvs => "\x7b" ++ stringifyFields kvs ++ "\x7d"

/-- Comma-separated serialization of array elements. -/
def stringifyElems : List Json → String
  | [] => ""
  | [x] => Json.stringify x
  | x :: y :: rest => Json.stringify x ++ "," ++ stringifyElems (y :: rest)

/-- Comma-separated serialization of object entries. -/
def stringifyFields : List (String × Json) → String
  | [] => ""
  | [(k, v)] => "\"" ++ jsonEscape k ++ "\":" ++ Json.stringify v
  | (k, v) :: e :: rest =>
      "\"" ++ jsonEscape k ++ "\":" ++ Json.stringify v ++ "," ++ stringifyFields (e :: rest)

end

/-- The `data: <json>` + blank-line framing used for every message the server
actually enqueues on a push stream (src/lib/sessions.ts and
src/app/api/events/route.ts build messages only in this shape). -/
def dataFrame (payload : String) : String :=
  "data: " ++ payload ++ "\n\n"

-- ===================================
-- Push subscribers (SSE controllers)
-- ===================================

/-- A push-stream subscriber, i.e. a `ReadableStreamDefaultController` held in
a client set. `closed` marks a connection whose `enqueue` throws; `received`
lists the messages successfully enqueued to it, oldest first. -/
structure Client where
  id : Nat
  closed : Bool
  received : List String
deriving DecidableEq

/-- Embedding of `controller.enqueue(message)`: succeeds with the updated connection, or
throws (`none`) when the connection is closed. -/
def enqueueTo (message : String) (c : Client) : Option Client :=
  if c.closed then none
  else some { c with received := c.received ++ [message] }

/-- The `clients.forEach` fan-out loop shared by `notifyClients`,
`notifyCurrentVictim` and `notifyMediaUpdate` in src/lib/sessions.ts: enqueue
to each subscriber in turn; a subscriber whose enqueue throws is deleted from
the set and the loop continues with the remaining subscribers. -/
def fanout (message : String) : List Client → List Client
  | [] => []
  | c :: rest =>
      match enqueueTo message c with
      | some c2 => c2 :: fanout message rest
      | none => fanout message rest

/-- Embedding of `notifyClients` of src/lib/sessions.ts lines 552-565, at the level of a
subscriber set: serialize the payload once (the second component counts the
`JSON.stringify` calls performed), build the framed message once, then fan
out to every current subscriber. -/
def notifyClientSet (payload : Json) (cs : List Client) : List Client × Nat :=
  let data := payload.stringify
  let message := dataFrame data
  (fanout message cs, 1)

-- ===================================
-- Registry data model (src/lib/sessions.ts)
-- ===================================

/-- Legacy `Victim['device']` union: `'iOS' | 'Android' | 'Desktop' | 'Unknown'`. -/
inductive DeviceCat where
  | iOS
  | Android
  | Desktop
  | Unknown
deriving DecidableEq

/-- The string a `DeviceCat` denotes in the source union type. -/
def deviceCatStr : DeviceCat → String
  | .iOS => "iOS"
  | .Android => "Android"
  | .Desktop => "Desktop"
  | .Unknown => "Unknown"

/-- Legacy `Victim` record (src/lib/sessions.ts lines 124-134). -/
structure Victim where
  id : Nat
  userAgent : String
  ip : String
  timestamp : String
  device : DeviceCat
  browser : String
  name : Option String
  phone : Option String
  email : Option String
deriving DecidableEq

/-- Embedding of `VictimProfile.device` block. -/
structure DeviceBlock where
  type : String
  os : String
  osVersion : String
  vendor : String
  model : String
  isMobile : Bool
  isTablet : Bool
deriving DecidableEq

/-- Embedding of `VictimProfile.browser` block. -/
structure BrowserBlock where
  name : String
  version : String
  engine : String
  userAgent : String
  language : String
  languages : List String
  cookiesEnabled : Bool
  doNotTrack : Bool
  platform : String
deriving DecidableEq

/-- Embedding of `VictimProfile.display` block. -/
structure DisplayBlock where
  screenWidth : Int
  screenHeight : Int
  viewportWidth : Int
  viewportHeight : Int
  colorDepth : Int
  pixelRatio : Int
  orientation : String
  touchSupport : Bool
  maxTouchPoints : Int
deriving DecidableEq

/-- Embedding of `VictimProfile.network` block. -/
structure NetworkBlock where
  connectionType : String
  effectiveType : String
  downlink : Int
  rtt : Int
  onLine : Bool
deriving DecidableEq

/-- Embedding of `VictimProfile.locale` block. -/
structure LocaleBlock where
  timezone : String
  timezoneOffset : Int
  language : String
deriving DecidableEq

/-- Embedding of `VictimProfile.capabilities` block. -/
structure CapabilitiesBlock where
  webGL : Bool
  webGLVendor : String
  webGLRenderer : String
  canvas : Bool
  localStorage : Bool
  sessionStorage : Bool
  indexedDB : Bool
  serviceWorker : Bool
  webRTC : Bool
  geolocation : Bool
  notifications : Bool
deriving DecidableEq

/-- Embedding of `VictimProfile.hardware` block. -/
structure HardwareBlock where
  cpuCores : Int
  deviceMemory : Int
  maxTouchPoints : Int
deriving DecidableEq

/-- Embedding of `IPGeolocation` record (src/lib/sessions.ts lines 14-31). The source field
named `as` is rendered `asField` because `as` is reserved in Lean. -/
structure IPGeolocation where
  ip : String
  country : String
  countryCode : String
  region : String
  regionName : String
  city : String
  zip : String
  lat : Int
  lon : Int
  timezone : String
  isp : String
  org : String
  asField : String
  mobile : Bool
  proxy : Bool
  hosting : Bool
deriving DecidableEq

/-- Embedding of `VictimProfile` record (src/lib/sessions.ts lines 33-121). -/
structure VictimProfile where
  id : Nat
  sessionId : String
  timestamp : String
  name : Option String
  phone : Option String
  email : Option String
  device : DeviceBlock
  browser : BrowserBlock
  display : DisplayBlock
  network : NetworkBlock
  ipGeo : Option IPGeolocation
  locale : LocaleBlock
  capabilities : CapabilitiesBlock
  hardware : HardwareBlock
deriving DecidableEq

/-- Embedding of `SessionStats.deviceBreakdown` counters. They live as JavaScript numbers
and can be driven below zero by unmatched decrements, hence `Int`. -/
structure DeviceBreakdown where
  iOS : Int
  Android : Int
  Desktop : Int
  Tablet : Int
  Unknown : Int
deriving DecidableEq

/-- The `MediaCapture.location` subobject built by `POST /api/media`: each
coordinate is read off the raw value with JavaScript property access and may
itself be `undefined`. -/
structure MediaLocation where
  latitude : Option Json
  longitude : Option Json
  accuracy : Option Json

/-- The `MediaCapture.permissions` flags after `!!` coercion. -/
structure MediaGrants where
  camera : Bool
  microphone : Bool
  geolocation : Bool
deriving DecidableEq

/-- Runtime shape of the `MediaCapture` record built by `POST /api/media`
(src/app/api/media/route.ts lines 23-38): the optional fields keep whatever
runtime values the route computes, unvalidated fields included. -/
structure MediaCapture where
  frame : Option String
  audioLevel : Option Json
  location : Option MediaLocation
  permissions : MediaGrants
  capturedAt : Option Json
  isLive : Bool

/-- Embedding of `SessionStats` (src/lib/sessions.ts lines 136-149), the process-wide
registry singleton `globalThis.sirenSessions`. -/
structure SessionStats where
  count : Nat
  victims : List Victim
  profiles : List VictimProfile
  deviceBreakdown : DeviceBreakdown
  currentVictim : Option VictimProfile
  currentMedia : Option MediaCapture

/-- Initial registry state (`defaultSessions`, src/lib/sessions.ts lines 181-194). -/
def defaultSessions : SessionStats :=
  { count := 0
    victims := []
    profiles := []
    deviceBreakdown := { iOS := 0, Android := 0, Desktop := 0, Tablet := 0, Unknown := 0 }
    currentVictim := none
    currentMedia := none }

/-- Whole-process server state. `sessionClients` is the broker set
`globalThis.sseClients` used by every notify function in src/lib/sessions.ts;
`routeClients` is the distinct module-local `clients` set declared at
src/app/api/events/route.ts line 9, the one `GET /api/events` registers new
subscribers into. `nextClientId` numbers freshly allocated controllers. -/
structure Srv where
  sessions : SessionStats
  sessionClients : List Client
  routeClients : List Client
  nextClientId : Nat

/-- Process start: empty registry, no subscribers in either set. -/
def initialSrv : Srv :=
  { sessions := defaultSessions
    sessionClients := []
    routeClients := []
    nextClientId := 0 }

-- ===================================
-- Utility functions (src/lib/sessions.ts lines 203-225)
-- ===================================

/-- Whether the first character list is a prefix of the second. -/
def charsPrefix : List Char → List Char → Bool
  | [], _ => true
  | _ :: _, [] => false
  | a :: as, b :: bs => a == b && charsPrefix as bs

/-- Whether the first character list occurs contiguously inside the second. -/
def charsInfix (needle : List Char) : List Char → Bool
  | [] => charsPrefix needle []
  | b :: bs => charsPrefix needle (b :: bs) || charsInfix needle bs

/-- Embedding of `userAgent.toLowerCase()`, as the lowered character list. -/
def lowerChars (s : String) : List Char :=
  s.data.map Char.toLower

/-- JavaScript `haystackLower.includes(needle)` on the lowered user agent. -/
def includes (haystackLower : List Char) (needle : String) : Bool :=
  charsInfix needle.data haystackLower

/-- Embedding of `parseDevice` (src/lib/sessions.ts lines 207-215). -/
def parseDevice (userAgent : String) : DeviceCat :=
  let ua := lowerChars userAgent
  if includes ua "iphone" || includes ua "ipad" || includes ua "ipod" then .iOS
  else if includes ua "android" then .Android
  else if (includes ua "windows" || includes ua "macintosh" || includes ua "linux")
          && !includes ua "mobile" then .Desktop
  else .Unknown

/-- Embedding of `parseBrowser` (src/lib/sessions.ts lines 217-225). -/
def parseBrowser (userAgent : String) : String :=
  let ua := lowerChars userAgent
  if includes ua "chrome" && !includes ua "edg" then "Chrome"
  else if includes ua "safari" && !includes ua "chrome" then "Safari"
  else if includes ua "firefox" then "Firefox"
  else if includes ua "edg" then "Edge"
  else if includes ua "opera" || includes ua "opr" then "Opera"
  else "Other"

/-- JavaScript `v || fallback` on an optionally-absent string (the empty
string is falsy and also takes the fallback). -/
def jsOrStr (v : Option String) (fallback : String) : String :=
  match v with
  | some s => if s = "" then fallback else s
  | none => fallback

/-- JavaScript `v || fallback` on an optionally-absent number. -/
def jsOrInt (v : Option Int) (fallback : Int) : Int :=
  match v with
  | some n => if n = 0 then fallback else n
  | none => fallback

/-- JavaScript `v || fallback` on an optionally-absent boolean. -/
def jsOrBool (v : Option Bool) (fallback : Bool) : Bool :=
  match v with
  | some b => b || fallback
  | none => fallback

/-- JavaScript `v || undefined` on an optional string (`formData?.name ||
undefined` turns falsy values into an absent field). -/
def jsOrUndef (v : Option String) : Option String :=
  match v with
  | some s => if s = "" then none else some s
  | none => none

-- ===================================
-- IP geolocation (src/lib/sessions.ts lines 231-269)
-- ===================================

/-- The parsed body of a completed ip-api.com response, each field as
optionally absent, together with `response.ok`. -/
structure GeoApiData where
  ok : Bool
  status : String
  query : Option String
  country : Option String
  countryCode : Option String
  region : Option String
  regionName : Option String
  city : Option String
  zip : Option String
  lat : Option Int
  lon : Option Int
  timezone : Option String
  isp : Option String
  org : Option String
  asField : Option String
  mobile : Option Bool
  proxy : Option Bool
  hosting : Option Bool
deriving DecidableEq

/-- The guard at src/lib/sessions.ts line 233: `!ip || ip === 'Unknown' ||
ip.startsWith('127.') || ip.startsWith('192.168.') || ip.startsWith('10.')`. -/
def isPrivateOrLoopbackIP (ip : String) : Bool :=
  ip = "" || ip = "Unknown" || charsPrefix "127.".data ip.data
    || charsPrefix "192.168.".data ip.data || charsPrefix "10.".data ip.data

/-- The `AbortSignal.timeout(3000)` bound passed to the geolocation fetch
(src/lib/sessions.ts line 240), in milliseconds. -/
def ipGeoTimeoutMs : Nat := 3000

/-- Embedding of `fetchIPGeolocation` (src/lib/sessions.ts lines 231-269). The network
fetch is an oracle: `none` is a thrown or timed-out fetch (caught by the
surrounding try, yielding `undefined`), `some r` a completed response. -/
def fetchIPGeolocation (ip : String) (response : Option GeoApiData) :
    Option IPGeolocation :=
  if isPrivateOrLoopbackIP ip then none
  else
    match response with
    | none => none
    | some r =>
        if !r.ok then none
        else if r.status ≠ "success" then none
        else some
          { ip := jsOrStr r.query ip
            country := jsOrStr r.country "Unknown"
            countryCode := jsOrStr r.countryCode ""
            region := jsOrStr r.region ""
            regionName := jsOrStr r.regionName ""
            city := jsOrStr r.city ""
            zip := jsOrStr r.zip ""
            lat := jsOrInt r.lat 0
            lon := jsOrInt r.lon 0
            timezone := jsOrStr r.timezone ""
            isp := jsOrStr r.isp ""
            org := jsOrStr r.org ""
            asField := jsOrStr r.asField ""
            mobile := jsOrBool r.mobile false
            proxy := jsOrBool r.proxy false
            hosting := jsOrBool r.hosting false }

-- ===================================
-- Inputs to the profile builders
-- ===================================

/-- Optional portal form fields accompanying a submission. -/
structure FormData where
  name : Option String
  phone : Option String
  email : Option String
deriving DecidableEq

/-- The structured client-side snapshot (`Fingerprint` of src/lib/fingerprint),
exactly the fields `addVictimWithProfile` copies. -/
structure Fingerprint where
  device : DeviceBlock
  browser : BrowserBlock
  display : DisplayBlock
  network : NetworkBlock
  locale : LocaleBlock
  capabilities : CapabilitiesBlock
  hardware : HardwareBlock
deriving DecidableEq

/-- Ambient environment of one submission: `new Date().toISOString()`,
`generateSessionId()`, and the host timezone values read by the degraded
path's locale block. -/
structure Env where
  now : String
  sessionId : String
  timezone : String
  timezoneOffset : Int
deriving DecidableEq

-- ===================================
-- JSON encodings of the records the server serializes
-- ===================================

/-- An object entry for an optional string property: `JSON.stringify` omits
properties holding `undefined`. -/
def optStrEntry (k : String) (v : Option String) : List (String × Json) :=
  match v with
  | some s => [(k, Json.str s)]
  | none => []

/-- JSON encoding of a legacy `Victim`, property order as constructed. -/
def Victim.toJson (v : Victim) : Json :=
  .obj ([("id", .num (Int.ofNat v.id)), ("userAgent", .str v.userAgent),
         ("ip", .str v.ip), ("timestamp", .str v.timestamp),
         ("device", .str (deviceCatStr v.device)), ("browser", .str v.browser)]
        ++ optStrEntry "name" v.name ++ optStrEntry "phone" v.phone
        ++ optStrEntry "email" v.email)

/-- JSON encoding of a `DeviceBlock`. -/
def DeviceBlock.toJson (d : DeviceBlock) : Json :=
  .obj [("type", .str d.type), ("os", .str d.os), ("osVersion", .str d.osVersion),
        ("vendor", .str d.vendor), ("model", .str d.model),
        ("isMobile", .bool d.isMobile), ("isTablet", .bool d.isTablet)]

/-- JSON encoding of a `BrowserBlock`. -/
def BrowserBlock.toJson (b : BrowserBlock) : Json :=
  .obj [("name", .str b.name), ("version", .str b.version), ("engine", .str b.engine),
        ("userAgent", .str b.userAgent), ("language", .str b.language),
        ("languages", .arr (b.languages.map Json.str)),
        ("cookiesEnabled", .bool b.cookiesEnabled), ("doNotTrack", .bool b.doNotTrack),
        ("platform", .str b.platform)]

/-- JSON encoding of a `DisplayBlock`. -/
def DisplayBlock.toJson (d : DisplayBlock) : Json :=
  .obj [("screenWidth", .num d.screenWidth), ("screenHeight", .num d.screenHeight),
        ("viewportWidth", .num d.viewportWidth), ("viewportHeight", .num d.viewportHeight),
        ("colorDepth", .num d.colorDepth), ("pixelRatio", .num d.pixelRatio),
        ("orientation", .str d.orientation), ("touchSupport", .bool d.touchSupport),
        ("maxTouchPoints", .num d.maxTouchPoints)]

/-- JSON encoding of a `NetworkBlock`. -/
def NetworkBlock.toJson (n : NetworkBlock) : Json :=
  .obj [("connectionType", .str n.connectionType), ("effectiveType", .str n.effectiveType),
        ("downlink", .num n.downlink), ("rtt", .num n.rtt), ("onLine", .bool n.onLine)]

/-- JSON encoding of a `LocaleBlock`. -/
def LocaleBlock.toJson (l : LocaleBlock) : Json :=
  .obj [("timezone", .str l.timezone), ("timezoneOffset", .num l.timezoneOffset),
        ("language", .str l.language)]

/-- JSON encoding of a `CapabilitiesBlock`. -/
def CapabilitiesBlock.toJson (c : CapabilitiesBlock) : Json :=
  .obj [("webGL", .bool c.webGL), ("webGLVendor", .str c.webGLVendor),
        ("webGLRenderer", .str c.webGLRenderer), ("canvas", .bool c.canvas),
        ("localStorage", .bool c.localStorage), ("sessionStorage", .bool c.sessionStorage),
        ("indexedDB", .bool c.indexedDB), ("serviceWorker", .bool c.serviceWorker),
        ("webRTC", .bool c.webRTC), ("geolocation", .bool c.geolocation),
        ("notifications", .bool c.notifications)]

/-- JSON encoding of a `HardwareBlock`. -/
def HardwareBlock.toJson (h : HardwareBlock) : Json :=
  .obj [("cpuCores", .num h.cpuCores), ("deviceMemory", .num h.deviceMemory),
        ("maxTouchPoints", .num h.maxTouchPoints)]

/-- JSON encoding of an `IPGeolocation` (source property `as`). -/
def IPGeolocation.toJson (g : IPGeolocation) : Json :=
  .obj [("ip", .str g.ip), ("country", .str g.country), ("countryCode", .str g.countryCode),
        ("region", .str g.region), ("regionName", .str g.regionName), ("city", .str g.city),
        ("zip", .str g.zip), ("lat", .num g.lat), ("lon", .num g.lon),
        ("timezone", .str g.timezone), ("isp", .str g.isp), ("org", .str g.org),
        ("as", .str g.asField), ("mobile", .bool g.mobile), ("proxy", .bool g.proxy),
        ("hosting", .bool g.hosting)]

/-- JSON encoding of a `VictimProfile`, property order as constructed. -/
def VictimProfile.toJson (p : VictimProfile) : Json :=
  .obj ([("id", Json.num (Int.ofNat p.id)), ("sessionId", Json.str p.sessionId),
         ("timestamp", Json.str p.timestamp)]
        ++ optStrEntry "name" p.name ++ optStrEntry "phone" p.phone
        ++ optStrEntry "email" p.email
        ++ [("device", p.device.toJson), ("browser", p.browser.toJson),
            ("display", p.display.toJson), ("network", p.network.toJson)]
        ++ (match p.ipGeo with
            | some g => [("ipGeo", g.toJson)]
            | none => [])
        ++ [("locale", p.locale.toJson), ("capabilities", p.capabilities.toJson),
            ("hardware", p.hardware.toJson)])

/-- An object entry for an optional raw JSON property. -/
def optJsonEntry (k : String) (v : Option Json) : List (String × Json) :=
  match v with
  | some j => [(k, j)]
  | none => []

/-- JSON encoding of a `MediaLocation`. -/
def MediaLocation.toJson (l : MediaLocation) : Json :=
  .obj (optJsonEntry "latitude" l.latitude ++ optJsonEntry "longitude" l.longitude
        ++ optJsonEntry "accuracy" l.accuracy)

/-- JSON encoding of a `MediaCapture`, property order as constructed. -/
def MediaCapture.toJson (m : MediaCapture) : Json :=
  .obj (optStrEntry "frame" m.frame
        ++ optJsonEntry "audioLevel" m.audioLevel
        ++ (match m.location with
            | some l => [("location", l.toJson)]
            | none => [])
        ++ [("permissions", Json.obj [("camera", .bool m.permissions.camera),
              ("microphone", .bool m.permissions.microphone),
              ("geolocation", .bool m.permissions.geolocation)])]
        ++ optJsonEntry "capturedAt" m.capturedAt
        ++ [("isLive", Json.bool m.isLive)])

-- ===================================
-- Broker notify functions on server state (src/lib/sessions.ts lines 552-606)
-- ===================================

/-- Embedding of `notifyClients` on server state: serialize the payload once, fan out to
every subscriber of the broker set `globalThis.sseClients`. -/
def notifyClients (payload : Json) (s : Srv) : Srv :=
  { s with sessionClients := (notifyClientSet payload s.sessionClients).1 }

/-- Embedding of `notifyCurrentVictim` (src/lib/sessions.ts lines 567-582). -/
def notifyCurrentVictim (s : Srv) : Srv :=
  match s.sessions.currentVictim with
  | some cv =>
      notifyClients (.obj [("type", .str "current_victim"), ("profile", cv.toJson)]) s
  | none => s

/-- Embedding of `notifyMediaUpdate` (src/lib/sessions.ts lines 593-606). -/
def notifyMediaUpdate (s : Srv) : Srv :=
  match s.sessions.currentMedia with
  | some m =>
      notifyClients (.obj [("type", .str "media_update"), ("media", m.toJson)]) s
  | none => s

/-- Embedding of `updateMedia` (src/lib/sessions.ts lines 588-591): replace the current
telemetry slot unconditionally, then notify. -/
def updateMedia (m : MediaCapture) (s : Srv) : Srv :=
  notifyMediaUpdate { s with sessions := { s.sessions with currentMedia := some m } }

-- ===================================
-- Registry mutators (src/lib/sessions.ts lines 275-497)
-- ===================================

/-- Embedding of `sessions.deviceBreakdown[deviceType]++` guarded by `deviceType in
sessions.deviceBreakdown`, falling back to `Unknown++`
(src/lib/sessions.ts lines 361-366). -/
def incBreakdownKey (b : DeviceBreakdown) (t : String) : DeviceBreakdown :=
  if t = "iOS" then { b with iOS := b.iOS + 1 }
  else if t = "Android" then { b with Android := b.Android + 1 }
  else if t = "Desktop" then { b with Desktop := b.Desktop + 1 }
  else if t = "Tablet" then { b with Tablet := b.Tablet + 1 }
  else if t = "Unknown" then { b with Unknown := b.Unknown + 1 }
  else { b with Unknown := b.Unknown + 1 }

/-- Embedding of `sessions.deviceBreakdown[device]++` for a legacy device category. -/
def incBreakdownCat (b : DeviceBreakdown) (d : DeviceCat) : DeviceBreakdown :=
  match d with
  | .iOS => { b with iOS := b.iOS + 1 }
  | .Android => { b with Android := b.Android + 1 }
  | .Desktop => { b with Desktop := b.Desktop + 1 }
  | .Unknown => { b with Unknown := b.Unknown + 1 }

/-- Embedding of `sessions.deviceBreakdown[removed.device]--` on legacy eviction. -/
def decBreakdownCat (b : DeviceBreakdown) (d : DeviceCat) : DeviceBreakdown :=
  match d with
  | .iOS => { b with iOS := b.iOS - 1 }
  | .Android => { b with Android := b.Android - 1 }
  | .Desktop => { b with Desktop := b.Desktop - 1 }
  | .Unknown => { b with Unknown := b.Unknown - 1 }

/-- Embedding of `addVictimWithProfile` (src/lib/sessions.ts lines 275-392). The awaited
geolocation fetch is the `geoResponse` oracle; `env` supplies the timestamp
and generated session id. Returns the built profile and the new state. -/
def addVictimWithProfile (fingerprint : Fingerprint) (ip : String)
    (formData : Option FormData) (env : Env) (geoResponse : Option GeoApiData)
    (s : Srv) : VictimProfile × Srv :=
  let st := s.sessions
  let ipGeo := fetchIPGeolocation ip geoResponse
  let profile : VictimProfile :=
    { id := st.count + 1
      sessionId := env.sessionId
      timestamp := env.now
      name := jsOrUndef (formData.bind (fun f => f.name))
      phone := jsOrUndef (formData.bind (fun f => f.phone))
      email := jsOrUndef (formData.bind (fun f => f.email))
      device :=
        { type := fingerprint.device.type
          os := fingerprint.device.os
          osVersion := fingerprint.device.osVersion
          vendor := fingerprint.device.vendor
          model := fingerprint.device.model
          isMobile := fingerprint.device.isMobile
          isTablet := fingerprint.device.isTablet }
      browser :=
        { name := fingerprint.browser.name
          version := fingerprint.browser.version
          engine := fingerprint.browser.engine
          userAgent := fingerprint.browser.userAgent
          language := fingerprint.browser.language
          languages := fingerprint.browser.languages
          cookiesEnabled := fingerprint.browser.cookiesEnabled
          doNotTrack := fingerprint.browser.doNotTrack
          platform := fingerprint.browser.platform }
      display :=
        { screenWidth := fingerprint.display.screenWidth
          screenHeight := fingerprint.display.screenHeight
          viewportWidth := fingerprint.display.viewportWidth
          viewportHeight := fingerprint.display.viewportHeight
          colorDepth := fingerprint.display.colorDepth
          pixelRatio := fingerprint.display.pixelRatio
          orientation := fingerprint.display.orientation
          touchSupport := fingerprint.display.touchSupport
          maxTouchPoints := fingerprint.display.maxTouchPoints }
      network :=
        { connectionType := fingerprint.network.connectionType
          effectiveType := fingerprint.network.effectiveType
          downlink := fingerprint.network.downlink
          rtt := fingerprint.network.rtt
          onLine := fingerprint.network.onLine }
      ipGeo := ipGeo
      locale :=
        { timezone := fingerprint.locale.timezone
          timezoneOffset := fingerprint.locale.timezoneOffset
          language := fingerprint.locale.language }
      capabilities :=
        { webGL := fingerprint.capabilities.webGL
          webGLVendor := fingerprint.capabilities.webGLVendor
          webGLRenderer := fingerprint.capabilities.webGLRenderer
          canvas := fingerprint.capabilities.canvas
          localStorage := fingerprint.capabilities.localStorage
          sessionStorage := fingerprint.capabilities.sessionStorage
          indexedDB := fingerprint.capabilities.indexedDB
          serviceWorker := fingerprint.capabilities.serviceWorker
          webRTC := fingerprint.capabilities.webRTC
          geolocation := fingerprint.capabilities.geolocation
          notifications := fingerprint.capabilities.notifications }
      hardware :=
        { cpuCores := fingerprint.hardware.cpuCores
          deviceMemory := fingerprint.hardware.deviceMemory
          maxTouchPoints := fingerprint.hardware.maxTouchPoints } }
  let st := { st with
    count := st.count + 1
    profiles := st.profiles ++ [profile]
    currentVictim := some profile }
  let st : SessionStats := { st with deviceBreakdown := incBreakdownKey st.deviceBreakdown profile.device.type }
  -- Keep only last 100 profiles: eviction drops the oldest WITHOUT touching
  -- the breakdown counters (lines 369-371).
  let st : SessionStats := if st.profiles.length > 100 then { st with profiles := st.profiles.tail } else st
  let legacyVictim : Victim :=
    { id := profile.id
      userAgent := profile.browser.userAgent
      ip := jsOrStr (ipGeo.map (fun g => g.ip)) ip
      timestamp := profile.timestamp
      device := parseDevice profile.browser.userAgent
      browser := profile.browser.name
      name := profile.name
      phone := profile.phone
      email := profile.email }
  let st : SessionStats := { st with victims := st.victims ++ [legacyVictim] }
  let st : SessionStats := if st.victims.length > 100 then { st with victims := st.victims.tail } else st
  (profile, { s with sessions := st })

/-- Embedding of `addVictim` (src/lib/sessions.ts lines 395-497), the legacy degraded-input
path. The local profile pushed to the admin panel (the source's partially
synthesized `VictimProfile` of lines 425-489) is built from documented
fallback values; the trailing `notifyCurrentVictim()` call is included. -/
def addVictim (userAgent ip : String) (formData : Option FormData) (env : Env)
    (s : Srv) : Victim × Srv :=
  let st := s.sessions
  let device := parseDevice userAgent
  let browser := parseBrowser userAgent
  let victim : Victim :=
    { id := st.count + 1
      userAgent := userAgent
      ip := if ip = "" then "Unknown" else ip
      timestamp := env.now
      device := device
      browser := browser
      name := jsOrUndef (formData.bind (fun f => f.name))
      phone := jsOrUndef (formData.bind (fun f => f.phone))
      email := jsOrUndef (formData.bind (fun f => f.email)) }
  let st := { st with
    count := st.count + 1
    victims := st.victims ++ [victim]
    deviceBreakdown := incBreakdownCat st.deviceBreakdown device }
  -- Legacy eviction DOES decrement the evicted victim's category (lines 418-421).
  let st : SessionStats :=
    if st.victims.length > 100 then
      match st.victims with
      | removed :: rest =>
          { st with victims := rest
                    deviceBreakdown := decBreakdownCat st.deviceBreakdown removed.device }
      | [] => st
    else st
  let panelProfile : VictimProfile :=
    { id := victim.id
      sessionId := env.sessionId
      timestamp := victim.timestamp
      name := victim.name
      phone := victim.phone
      email := victim.email
      device :=
        { type := deviceCatStr device
          os := "Unknown"
          osVersion := ""
          vendor := "Unknown"
          model := ""
          isMobile := device == .Android || device == .iOS
          isTablet := false }
      browser :=
        { name := browser
          version := ""
          engine := ""
          userAgent := userAgent
          language := "en-US"
          languages := ["en-US"]
          cookiesEnabled := true
          doNotTrack := false
          platform := "Unknown" }
      display :=
        { screenWidth := 1920
          screenHeight := 1080
          viewportWidth := 1920
          viewportHeight := 1080
          colorDepth := 24
          pixelRatio := 1
          orientation := "landscape"
          touchSupport := false
          maxTouchPoints := 0 }
      network :=
        { connectionType := "4g"
          effectiveType := "4g"
          downlink := 10
          rtt := 50
          onLine := true }
      ipGeo := none
      locale :=
        { timezone := env.timezone
          timezoneOffset := env.timezoneOffset
          language := "en-US" }
      capabilities :=
        { webGL := true
          webGLVendor := ""
          webGLRenderer := ""
          canvas := true
          localStorage := true
          sessionStorage := true
          indexedDB := true
          serviceWorker := false
          webRTC := true
          geolocation := false
          notifications := false }
      hardware :=
        { cpuCores := 4
          deviceMemory := 8
          maxTouchPoints := 0 } }
  let st := { st with currentVictim := some panelProfile }
  let s2 := notifyCurrentVictim { s with sessions := st }
  (victim, s2)

-- ===================================
-- Getters and remaining endpoints
-- ===================================

/-- Embedding of `getStats` (src/lib/sessions.ts lines 503-505): shallow copy of the
registry singleton. -/
def getStats (s : Srv) : SessionStats :=
  s.sessions

/-- Embedding of `resetSessions` (src/lib/sessions.ts lines 519-525). -/
def resetSessions (s : Srv) : Srv :=
  { s with sessions := { s.sessions with
      count := 0
      victims := []
      profiles := []
      deviceBreakdown := { iOS := 0, Android := 0, Desktop := 0, Tablet := 0, Unknown := 0 }
      currentVictim := none } }

/-- Body of the `GET /api/stats` response (src/app/api/stats/route.ts). -/
structure StatsResponse where
  count : Nat
  deviceBreakdown : DeviceBreakdown
  recentVictims : List Victim

/-- JavaScript `arr.slice(-20)`. -/
def sliceLast20 (l : List Victim) : List Victim :=
  l.drop (l.length - 20)

/-- Embedding of `GET /api/stats` (src/app/api/stats/route.ts lines 8-16). -/
def statsGET (s : Srv) : StatsResponse :=
  let stats := getStats s
  { count := stats.count
    deviceBreakdown := stats.deviceBreakdown
    recentVictims := (sliceLast20 stats.victims).reverse }

/-- The initial connection marker of `GET /api/events`
(src/app/api/events/route.ts line 39). -/
def connectedMessage : String :=
  dataFrame (Json.obj [("type", Json.str "connected")]).stringify

/-- The heartbeat message (src/app/api/events/route.ts line 45). -/
def pingMessage : String :=
  dataFrame (Json.obj [("type", Json.str "ping")]).stringify

/-- The heartbeat period of `GET /api/events` (line 51), in milliseconds. -/
def heartbeatIntervalMs : Nat := 30000

/-- Embedding of `GET /api/events` (src/app/api/events/route.ts lines 32-62): allocate a
fresh stream controller, add it to the route's module-local client set (NOT
the broker set of src/lib/sessions.ts), and enqueue the initial connected
marker. Returns the new state and the new subscriber's id. -/
def eventsGET (s : Srv) : Srv × Nat :=
  let c : Client := { id := s.nextClientId, closed := false, received := [connectedMessage] }
  ({ s with routeClients := s.routeClients ++ [c], nextClientId := s.nextClientId + 1 },
   s.nextClientId)

/-- One firing of a connection's heartbeat interval (lines 43-51): enqueue a
ping; if the enqueue throws, the interval is cleared and the subscriber is
removed (`none`). -/
def heartbeatFire (c : Client) : Option Client :=
  if c.closed then none
  else some { c with received := c.received ++ [pingMessage] }

/-- HTTP response summary: status code and the body's `success` flag. -/
structure ApiResponse where
  status : Nat
  success : Bool
deriving DecidableEq

/-- The `{success: true}` 200 response. -/
def okResponse : ApiResponse := { status := 200, success := true }

/-- The `{success: false, error}` 400 response. -/
def badRequestResponse : ApiResponse := { status := 400, success := false }

/-- The `{success: false, error}` 500 response of a route's catch-all. -/
def serverErrorResponse : ApiResponse := { status := 500, success := false }

/-- Embedding of `POST /api/media` (src/app/api/media/route.ts lines 10-51) on a request
whose body parsed to `body`. A `null` body makes `body.permissions` throw,
landing in the catch-all (500). -/
def mediaPOST (body : Json) (s : Srv) : Srv × ApiResponse :=
  match body with
  | .null => (s, serverErrorResponse)
  | _ =>
    if !truthy (getProp body "permissions") || (getProp body "capturedAt").isNone then
      (s, badRequestResponse)
    else
      let permsVal := getProp body "permissions"
      let locVal := getProp body "location"
      let media : MediaCapture :=
        { frame := asString (getProp body "frame")
          audioLevel := nullishToUndef (getProp body "audioLevel")
          location :=
            if truthy locVal then
              some { latitude := propOf locVal "latitude"
                     longitude := propOf locVal "longitude"
                     accuracy := propOf locVal "accuracy" }
            else none
          permissions :=
            { camera := truthy (propOf permsVal "camera")
              microphone := truthy (propOf permsVal "microphone")
              geolocation := truthy (propOf permsVal "geolocation") }
          capturedAt := getProp body "capturedAt"
          isLive := true }
      (updateMedia media s, okResponse)

/-- Embedding of `POST /api/track`, legacy branch (src/app/api/track/route.ts lines 9-46):
record the victim, then publish it through the broker's `notifyClients`. -/
def trackPOST (userAgent ip : String) (formData : Option FormData) (env : Env)
    (s : Srv) : Srv × ApiResponse :=
  let r := addVictim userAgent ip formData env s
  let s2 := notifyClients r.1.toJson r.2
  (s2, okResponse)

-- ===================================
-- Continuous capture loop (src/dns-server.js, global stream manager)
-- ===================================

/-- Client-side global stream state: `window.__sirenStream` plus the module
globals of the stream manager and the `window.__sirenStreamInterval` slot.
`stream` is `some active?` for a held `MediaStream`; `interval` says whether
the streaming interval handle is set. `acquisitions` counts successful
`getUserMedia` acquisitions, `intervalsStarted` counts `setInterval` calls,
and `activeIntervals` counts intervals started and not yet cleared. -/
structure StreamState where
  stream : Option Bool
  isStreaming : Bool
  permCam : Bool
  permMic : Bool
  permGeo : Bool
  lastError : Option String
  interval : Bool
  audioCtx : Bool
  videoElem : Bool
  acquisitions : Nat
  intervalsStarted : Nat
  activeIntervals : Nat
deriving DecidableEq

/-- Fresh `getStreamState()` result (src/dns-server.js lines 133-151). -/
def initialStreamState : StreamState :=
  { stream := none
    isStreaming := false
    permCam := false
    permMic := false
    permGeo := false
    lastError := none
    interval := false
    audioCtx := false
    videoElem := false
    acquisitions := 0
    intervalsStarted := 0
    activeIntervals := 0 }

/-- Outcome of the `getUserMedia` requests inside `initGlobalStream`: both
modalities granted, the camera-only retry granted, or everything denied. -/
inductive GumOutcome where
  | both
  | cameraOnly (message : String)
  | denied (message : String)
deriving DecidableEq

/-- Embedding of `initGlobalStream` (src/dns-server.js lines 317-372): a no-op returning
`true` when an active stream is already held; otherwise at most one successful
acquisition, with a camera-only retry after a combined failure. -/
def initGlobalStream (outcome : GumOutcome) (s : StreamState) : StreamState × Bool :=
  if s.stream = some true then (s, true)
  else
    match outcome with
    | .both =>
        ({ s with stream := some true, permCam := true, permMic := true,
                  lastError := none, videoElem := true, audioCtx := true,
                  acquisitions := s.acquisitions + 1 }, true)
    | .cameraOnly msg =>
        ({ s with stream := some true, permCam := true, lastError := some msg,
                  videoElem := true,
                  acquisitions := s.acquisitions + 1 }, true)
    | .denied msg =>
        ({ s with lastError := some msg }, false)

/-- Embedding of `startGlobalStreaming` (src/dns-server.js lines 402-453): a no-op when the
interval handle is already set or when no stream is held; otherwise arms
exactly one interval. -/
def startGlobalStreaming (s : StreamState) : StreamState :=
  if s.interval then s
  else if s.stream = none then s
  else
    { s with isStreaming := true
             interval := true
             intervalsStarted := s.intervalsStarted + 1
             activeIntervals := s.activeIntervals + 1 }

/-- Embedding of `stopGlobalStreaming` (src/dns-server.js lines 484-521): clears the
interval if set, releases the stream, audio graph and capture scaffolding if
present, and resets the flags; throws nowhere. -/
def stopGlobalStreaming (s : StreamState) : StreamState :=
  { s with
    interval := false
    activeIntervals := if s.interval then s.activeIntervals - 1 else s.activeIntervals
    stream := none
    audioCtx := false
    videoElem := false
    isStreaming := false
    permCam := false
    permMic := false
    permGeo := false }

/-- One firing of the streaming interval (src/dns-server.js lines 419-447):
if the stream is gone or no longer active the loop stops itself; otherwise
the tick samples and submits without touching this state. -/
def streamTick (s : StreamState) : StreamState :=
  if s.stream = some true then s else stopGlobalStreaming s

/-- External and user events driving the capture loop. -/
inductive CaptureOp where
  | init (outcome : GumOutcome)
  | start
  | stop
  | streamEnded
  | tick
deriving DecidableEq

/-- Step function of the capture loop under one event. -/
def captureStep (s : StreamState) (op : CaptureOp) : StreamState :=
  match op with
  | .init o => (initGlobalStream o s).1
  | .start => startGlobalStreaming s
  | .stop => stopGlobalStreaming s
  | .streamEnded => { s with stream := s.stream.map (fun _ => false) }
  | .tick => streamTick s

/-- Run the capture loop from a fresh tab over a list of events. -/
def runCapture (ops : List CaptureOp) : StreamState :=
  ops.foldl captureStep initialStreamState

-- ===================================
-- Submission sequences over the registry
-- ===================================

/-- One accepted profile submission: either the extended fingerprint path or
the legacy user-agent-only path. -/
inductive SubmitOp where
  | extended (fingerprint : Fingerprint) (ip : String) (formData : Option FormData)
      (env : Env) (geoResponse : Option GeoApiData)
  | legacy (userAgent ip : String) (formData : Option FormData) (env : Env)

/-- State transition of one accepted submission. -/
def submitStep (s : Srv) (op : SubmitOp) : Srv :=
  match op with
  | .extended fp ip fd env geo => (addVictimWithProfile fp ip fd env geo s).2
  | .legacy ua ip fd env => (addVictim ua ip fd env s).2

/-- Run a sequence of accepted submissions from process start. -/
def runSubmits (ops : List SubmitOp) : Srv :=
  ops.foldl submitStep initialSrv

-- ===================================
-- Broker fan-out lemmas
-- ===================================

/-- Every open subscriber receives the message, wherever it sits in the set
and whatever happens to the subscribers before it. -/
theorem fanout_mem_of_open (message : String) (cs : List Client) (c : Client)
    (hc : c ∈ cs) (hopen : c.closed = false) :
    { c with received := c.received ++ [message] } ∈ fanout message cs := by
  induction cs with
  | nil => cases hc
  | cons a rest ih =>
      rcases List.mem_cons.mp hc with heq | hmem
      · subst heq
        simp [fanout, enqueueTo, hopen]
      · cases hca : a.closed
        · simp only [fanout, enqueueTo, hca, Bool.false_eq_true, if_false]
          exact List.mem_cons_of_mem _ (ih hmem)
        · simpa [fanout, enqueueTo, hca] using ih hmem

/-- Subscribers surviving the fan-out are exactly the open ones. -/
theorem fanout_all_open (message : String) (cs : List Client) :
    ∀ c2 ∈ fanout message cs, c2.closed = false := by
  induction cs with
  | nil => intro c2 h; simp [fanout] at h
  | cons a rest ih =>
      intro c2 h
      cases hca : a.closed
      · simp only [fanout, enqueueTo, hca, Bool.false_eq_true, if_false] at h
        rcases List.mem_cons.mp h with heq | hmem
        · subst heq; simp [hca]
        · exact ih c2 hmem
      · exact ih c2 (by simpa [fanout, enqueueTo, hca] using h)

/-- A closed subscriber shrinks the set: the surviving set has exactly one
entry per open subscriber. -/
theorem fanout_length (message : String) (cs : List Client) :
    (fanout message cs).length = (cs.filter (fun c => !c.closed)).length := by
  induction cs with
  | nil => rfl
  | cons a rest ih =>
      by_cases ha : a.closed <;>
        simp [fanout, enqueueTo, ha, List.filter, ih]

-- ===================================
-- Claim theorems
-- ===================================

/-- Claim C5: a publish over the subscriber set serializes the payload exactly
once; a subscriber whose enqueue throws is removed while delivery still
reaches every other (open) subscriber, so one dead connection neither aborts
the fan-out nor survives it. -/
theorem publishFanoutIsolation (cs : List Client) (payload : Json) :
    (notifyClientSet payload cs).2 = 1
    ∧ (∀ c ∈ cs, c.closed = false →
        { c with received := c.received ++ [dataFrame payload.stringify] }
          ∈ (notifyClientSet payload cs).1)
    ∧ (∀ c2 ∈ (notifyClientSet payload cs).1, c2.closed = false)
    ∧ ((notifyClientSet payload cs).1).length
        = (cs.filter (fun c => !c.closed)).length := by
  refine ⟨rfl, ?_, ?_, ?_⟩
  · intro c hc hopen
    exact fanout_mem_of_open _ cs c hc hopen
  · intro c2 h
    exact fanout_all_open _ cs c2 h
  · exact fanout_length _ cs

/-- A subscriber set holding one already-closed and one open connection. -/
def closedConn : Client := { id := 0, closed := true, received := [] }

/-- The open connection of the two-subscriber scenario. -/
def openConn : Client := { id := 1, closed := false, received := [] }

/-- Witness for C5: with a closed subscriber listed before an open one, the
open subscriber still receives the published message and the set shrinks to
the single open subscriber. -/
theorem publishFanoutIsolation_witness :
    (openConn ∈ [closedConn, openConn] ∧ openConn.closed = false)
    ∧ { openConn with received := openConn.received ++ [dataFrame (Json.str "x").stringify] }
        ∈ (notifyClientSet (Json.str "x") [closedConn, openConn]).1
    ∧ ((notifyClientSet (Json.str "x") [closedConn, openConn]).1).length
        = ([closedConn, openConn].filter (fun c => !c.closed)).length :=
  ⟨⟨by decide, by decide⟩,
   (publishFanoutIsolation [closedConn, openConn] (Json.str "x")).2.1 openConn
     (by decide) (by decide),
   (publishFanoutIsolation [closedConn, openConn] (Json.str "x")).2.2.2⟩

/-- A fixed ambient environment used by concrete scenarios. -/
def env0 : Env :=
  { now := "2024-01-01T00:00:00.000Z"
    sessionId := "siren_s0"
    timezone := "UTC"
    timezoneOffset := 0 }

/-- Claim C1 (code bug): a subscriber registered through `GET /api/events`
lands in the route's module-local client set, while `notifyClients` of
src/lib/sessions.ts publishes to the distinct `globalThis.sseClients` set.
After subscribing and then accepting a profile submission through
`POST /api/track` (which publishes via `notifyClients`), the subscriber's
stream still holds only the initial connected marker: the profile event was
never delivered to it, even though the submission was accepted. -/
theorem subscribeThenPublishNotDelivered :
    ((trackPOST "Mozilla/5.0 (Linux; Android 14)" "Unknown" none env0
        ((eventsGET initialSrv).1)).1).routeClients.map (fun c => c.received)
      = [[connectedMessage]]
    ∧ (trackPOST "Mozilla/5.0 (Linux; Android 14)" "Unknown" none env0
        ((eventsGET initialSrv).1)).2 = okResponse
    ∧ ((trackPOST "Mozilla/5.0 (Linux; Android 14)" "Unknown" none env0
        ((eventsGET initialSrv).1)).1).sessions.count = 1
    ∧ ((trackPOST "Mozilla/5.0 (Linux; Android 14)" "Unknown" none env0
        ((eventsGET initialSrv).1)).1).sessionClients = [] :=
  ⟨rfl, rfl, rfl, rfl⟩

/-- The per-message framing asserted by the specification: an explicit
`event:` line naming the event kind, then the data line, then a blank line. -/
def sseEventFrame (kind payload : String) : String :=
  "event: " ++ kind ++ "\ndata: " ++ payload ++ "\n\n"

/-- String append acts as list append on the underlying characters. -/
theorem strData_append (a b : String) : (a ++ b).data = a.data ++ b.data := rfl

/-- Counterexample for C9: the very first message `GET /api/events` enqueues,
the connected marker, is not of the `event: <kind>\ndata: <json>\n\n` shape
the claim asserts for every message (it begins with `data: `, the kind being
carried inside the JSON payload instead). -/
theorem connectedMarkerNotEventFramed :
    ¬ ∃ kind payload, connectedMessage = sseEventFrame kind payload := by
  rintro ⟨k, p, h⟩
  have h2 : connectedMessage.data.head? = (sseEventFrame k p).data.head? := by rw [h]
  have hL : connectedMessage.data.head? = some 'd' := rfl
  have hR : (sseEventFrame k p).data.head? = some 'e' := by
    simp only [sseEventFrame, strData_append, List.append_assoc]
    rfl
  rw [hL, hR] at h2
  simp at h2

/-- Claim C9 (amended): every push message is framed as `data: <json>` plus a
blank line with the kind inside the JSON payload; `GET /api/events` enqueues
the connected marker immediately on subscription, and each open connection's
heartbeat fires on a 30000 ms period enqueueing the ping marker. -/
theorem eventsStreamFraming :
    heartbeatIntervalMs = 30000
    ∧ (∀ s : Srv, ((eventsGET s).1).routeClients
        = s.routeClients ++ [{ id := s.nextClientId, closed := false, received := [connectedMessage] }])
    ∧ connectedMessage = dataFrame (Json.obj [("type", Json.str "connected")]).stringify
    ∧ pingMessage = dataFrame (Json.obj [("type", Json.str "ping")]).stringify
    ∧ (∀ c : Client, c.closed = false →
        heartbeatFire c = some { c with received := c.received ++ [pingMessage] })
    ∧ (∀ payload cs, (notifyClientSet payload cs).1
        = fanout (dataFrame payload.stringify) cs) := by
  refine ⟨rfl, fun s => rfl, rfl, rfl, ?_, fun payload cs => rfl⟩
  intro c hopen
  simp [heartbeatFire, hopen]

/-- Witness for C9's amended claim: the heartbeat firing on a concrete open
connection enqueues the ping marker. -/
theorem eventsStreamFraming_witness :
    openConn.closed = false
    ∧ heartbeatFire openConn
        = some { openConn with received := openConn.received ++ [pingMessage] } :=
  ⟨by decide, eventsStreamFraming.2.2.2.2.1 openConn (by decide)⟩

/-- The telemetry slot after `updateMedia` holds exactly the new sample (the
follow-up notify touches only the subscriber set). -/
theorem updateMedia_currentMedia (m : MediaCapture) (s : Srv) :
    (updateMedia m s).sessions.currentMedia = some m := rfl

/-- Claim C3: a telemetry body missing `grants` (`permissions`) or
`capturedAt` is rejected with the 400 `success:false` response and the state
is returned untouched (no telemetry-slot mutation, no publish); a body with
the required fields present as per the input contract and every optional
field absent succeeds and stores a sample with `frame`, `audioLevel` and
`location` all unset. -/
theorem mediaValidationAndMinimalSuccess :
    (∀ (s : Srv) (kvs : List (String × Json)),
        (getProp (Json.obj kvs) "permissions" = none
          ∨ getProp (Json.obj kvs) "capturedAt" = none) →
        mediaPOST (Json.obj kvs) s = (s, badRequestResponse))
    ∧ (∀ (s : Srv) (kvs perms : List (String × Json)) (ct : Json),
        getProp (Json.obj kvs) "permissions" = some (Json.obj perms) →
        getProp (Json.obj kvs) "capturedAt" = some ct →
        getProp (Json.obj kvs) "frame" = none →
        getProp (Json.obj kvs) "audioLevel" = none →
        getProp (Json.obj kvs) "location" = none →
        (mediaPOST (Json.obj kvs) s).2 = okResponse
        ∧ ∃ m, ((mediaPOST (Json.obj kvs) s).1).sessions.currentMedia = some m
            ∧ m.frame = none ∧ m.audioLevel = none ∧ m.location = none) := by
  constructor
  · intro s kvs h
    rcases h with h | h <;>
      simp [mediaPOST, h, truthy]
  · intro s kvs perms ct hperm hct hframe haudio hloc
    simp only [mediaPOST, hperm, hct, hframe, haudio, hloc, truthy,
      nullishToUndef, asString, Option.isNone_some, Bool.not_true, Bool.false_or,
      Bool.or_false, if_false, Bool.not_false, Bool.true_or, if_true]
    refine ⟨rfl, ?_⟩
    exact ⟨_, updateMedia_currentMedia _ _, rfl, rfl, rfl⟩

/-- The success-path body of the C3 witness: required fields only. -/
def minimalMediaBody : Json :=
  Json.obj [("permissions", Json.obj [("camera", Json.bool true),
              ("microphone", Json.bool true), ("geolocation", Json.bool true)]),
            ("capturedAt", Json.str "2024-01-01T00:00:00.000Z")]

/-- Witness for C3: the empty body is rejected leaving the state untouched,
and the minimal body with required fields only succeeds with an all-unset
sample. -/
theorem mediaValidationAndMinimalSuccess_witness :
    (getProp (Json.obj []) "permissions" = none
      ∧ mediaPOST (Json.obj []) initialSrv = (initialSrv, badRequestResponse))
    ∧ ((mediaPOST minimalMediaBody initialSrv).2 = okResponse
      ∧ ∃ m, ((mediaPOST minimalMediaBody initialSrv).1).sessions.currentMedia = some m
          ∧ m.frame = none ∧ m.audioLevel = none ∧ m.location = none) :=
  ⟨⟨rfl, mediaValidationAndMinimalSuccess.1 initialSrv [] (Or.inl rfl)⟩,
   mediaValidationAndMinimalSuccess.2 initialSrv
     [("permissions", Json.obj [("camera", Json.bool true),
        ("microphone", Json.bool true), ("geolocation", Json.bool true)]),
      ("capturedAt", Json.str "2024-01-01T00:00:00.000Z")]
     [("camera", Json.bool true), ("microphone", Json.bool true),
      ("geolocation", Json.bool true)]
     (Json.str "2024-01-01T00:00:00.000Z") rfl rfl rfl rfl rfl⟩

/-- A telemetry body whose `audioLevel` has a wrong (string) type. -/
def strAudioBody : Json :=
  Json.obj [("permissions", Json.obj [("camera", Json.bool true),
              ("microphone", Json.bool true), ("geolocation", Json.bool true)]),
            ("capturedAt", Json.str "2024-01-01T00:00:00.000Z"),
            ("audioLevel", Json.str "loud")]

/-- Counterexample for C4: a wrong-typed `audioLevel` is NOT dropped — the
request succeeds and the stored sample keeps the string value verbatim, so
the claim that every wrong-typed optional field is omitted from the stored
sample fails. -/
theorem audioLevelNotDropped :
    (mediaPOST strAudioBody initialSrv).2 = okResponse
    ∧ ∃ m, ((mediaPOST strAudioBody initialSrv).1).sessions.currentMedia = some m
        ∧ m.audioLevel = some (Json.str "loud") :=
  ⟨rfl, ⟨_, rfl, rfl⟩⟩

/-- Claim C4 (amended): with the required fields present, no optional field
can cause rejection, whatever its value; `frame` alone is type-checked
(non-string values are dropped, strings kept); `audioLevel` is stored
verbatim whenever non-nullish; `location` is dropped when falsy and otherwise
coerced to an object holding its `latitude`, `longitude` and `accuracy`
properties, which may themselves be unset. -/
theorem mediaOptionalFieldHandling :
    ∀ (s : Srv) (kvs perms : List (String × Json)) (ct : Json),
      getProp (Json.obj kvs) "permissions" = some (Json.obj perms) →
      getProp (Json.obj kvs) "capturedAt" = some ct →
      (mediaPOST (Json.obj kvs) s).2 = okResponse
      ∧ ∃ m, ((mediaPOST (Json.obj kvs) s).1).sessions.currentMedia = some m
          ∧ (∀ j, getProp (Json.obj kvs) "frame" = some j →
              (∀ t, j ≠ Json.str t) → m.frame = none)
          ∧ (∀ t, getProp (Json.obj kvs) "frame" = some (Json.str t) →
              m.frame = some t)
          ∧ (∀ j, getProp (Json.obj kvs) "audioLevel" = some j → j ≠ Json.null →
              m.audioLevel = some j)
          ∧ (∀ j, getProp (Json.obj kvs) "location" = some j →
              truthy (some j) = false → m.location = none)
          ∧ (∀ j, getProp (Json.obj kvs) "location" = some j →
              truthy (some j) = true →
              m.location = some { latitude := getProp j "latitude",
                                  longitude := getProp j "longitude",
                                  accuracy := getProp j "accuracy" }) := by
  intro s kvs perms ct hperm hct
  simp only [mediaPOST, hperm, hct, truthy, Option.isNone_some, Bool.not_true,
    Bool.false_or, Bool.or_false, if_false, Bool.not_false, Bool.true_or, if_true]
  refine ⟨rfl, _, updateMedia_currentMedia _ _, ?_, ?_, ?_, ?_, ?_⟩
  · intro j hj hnot
    cases j <;> simp_all [asString]
  · intro t hj
    simp [asString, hj]
  · intro j hj hnn
    cases j <;> simp_all [nullishToUndef]
  · intro j hj hfalsy
    simp only [hj]
    simpa using hfalsy
  · intro j hj htruthy
    simp only [hj, propOf, Option.bind_some]
    simpa using htruthy

/-- A body exercising every optional-field shape at once: numeric `frame`
(wrong-typed), string `audioLevel`, falsy `location`. -/
def junkOptionalBody : Json :=
  Json.obj [("permissions", Json.obj [("camera", Json.bool true),
              ("microphone", Json.bool true), ("geolocation", Json.bool true)]),
            ("capturedAt", Json.str "2024-01-01T00:00:00.000Z"),
            ("frame", Json.num 5),
            ("audioLevel", Json.str "loud"),
            ("location", Json.bool false)]

/-- Witness for C4's amended claim: the junk body is accepted; the numeric
frame is dropped, the string audio level is stored verbatim, the falsy
location is dropped. -/
theorem mediaOptionalFieldHandling_witness :
    (mediaPOST junkOptionalBody initialSrv).2 = okResponse
    ∧ ∃ m, ((mediaPOST junkOptionalBody initialSrv).1).sessions.currentMedia = some m
        ∧ m.frame = none ∧ m.audioLevel = some (Json.str "loud") ∧ m.location = none := by
  obtain ⟨hok, m, hm, hframe, _, haudio, hlocF, _⟩ :=
    mediaOptionalFieldHandling initialSrv
      [("permissions", Json.obj [("camera", Json.bool true),
         ("microphone", Json.bool true), ("geolocation", Json.bool true)]),
       ("capturedAt", Json.str "2024-01-01T00:00:00.000Z"),
       ("frame", Json.num 5), ("audioLevel", Json.str "loud"),
       ("location", Json.bool false)]
      [("camera", Json.bool true), ("microphone", Json.bool true),
       ("geolocation", Json.bool true)]
      (Json.str "2024-01-01T00:00:00.000Z") rfl rfl
  exact ⟨hok, m, hm, hframe (Json.num 5) rfl (fun t => by simp),
    haudio (Json.str "loud") rfl (by simp), hlocF (Json.bool false) rfl rfl⟩

/-- The interval ghost counter tracks the interval handle: an armed handle
accounts for exactly one active interval. -/
def intervalInv (s : StreamState) : Prop :=
  s.activeIntervals = (if s.interval then 1 else 0)

/-- Every capture-loop event preserves the interval invariant. -/
theorem captureStep_intervalInv (s : StreamState) (op : CaptureOp)
    (h : intervalInv s) : intervalInv (captureStep s op) := by
  unfold intervalInv at h ⊢
  cases op with
  | init o =>
      simp only [captureStep, initGlobalStream]
      split
      · exact h
      · cases o <;> simpa using h
  | start =>
      simp only [captureStep, startGlobalStreaming]
      split
      · simp_all
      · split
        · simp_all
        · simp_all
  | stop =>
      simp only [captureStep, stopGlobalStreaming]
      by_cases hi : s.interval <;> simp_all
  | streamEnded =>
      simpa using h
  | tick =>
      simp only [captureStep, streamTick, stopGlobalStreaming]
      split
      · exact h
      · by_cases hi : s.interval <;> simp_all

/-- The interval invariant holds in every reachable capture-loop state. -/
theorem runCapture_intervalInv (ops : List CaptureOp) :
    intervalInv (runCapture ops) := by
  suffices h : ∀ s, intervalInv s → intervalInv (ops.foldl captureStep s) by
    exact h initialStreamState rfl
  induction ops with
  | nil => intro s h; exact h
  | cons op rest ih =>
      intro s h
      exact ih _ (captureStep_intervalInv s op h)

/-- Claim C6: re-entry safety of the capture loop. `initGlobalStream` with an
active stream held is a pure no-op (no second acquisition);
`startGlobalStreaming` with the interval armed is a no-op, is idempotent, and
never performs an acquisition; `stopGlobalStreaming` after
`stopGlobalStreaming` is a no-op (and, being a total function, throws
nowhere); and along every event sequence from a fresh tab at most one
interval timer is active. -/
theorem captureLoopSingleAcquisition :
    (∀ (o : GumOutcome) (s : StreamState), s.stream = some true →
        initGlobalStream o s = (s, true))
    ∧ (∀ s : StreamState, s.interval = true → startGlobalStreaming s = s)
    ∧ (∀ s : StreamState,
        startGlobalStreaming (startGlobalStreaming s) = startGlobalStreaming s)
    ∧ (∀ s : StreamState, (startGlobalStreaming s).acquisitions = s.acquisitions)
    ∧ (∀ s : StreamState,
        stopGlobalStreaming (stopGlobalStreaming s) = stopGlobalStreaming s)
    ∧ (∀ ops : List CaptureOp, (runCapture ops).activeIntervals ≤ 1) := by
  refine ⟨?_, ?_, ?_, ?_, ?_, ?_⟩
  · intro o s h
    simp [initGlobalStream, h]
  · intro s h
    simp [startGlobalStreaming, h]
  · intro s
    unfold startGlobalStreaming
    split
    · simp_all
    · split
      · simp_all
      · simp_all
  · intro s
    unfold startGlobalStreaming
    split
    · rfl
    · split <;> rfl
  · intro s
    unfold stopGlobalStreaming
    simp
  · intro ops
    have h := runCapture_intervalInv ops
    unfold intervalInv at h
    rw [h]
    split <;> omega

/-- A state with an active stream and an armed interval, as after a
successful `initGlobalStream` followed by `startGlobalStreaming`. -/
def streamingState : StreamState :=
  { stream := some true
    isStreaming := true
    permCam := true
    permMic := true
    permGeo := false
    lastError := none
    interval := true
    audioCtx := true
    videoElem := true
    acquisitions := 1
    intervalsStarted := 1
    activeIntervals := 1 }

/-- Witness for C6: while already streaming, a second init and a second start
are exact no-ops on a concrete streaming state. -/
theorem captureLoopSingleAcquisition_witness :
    (streamingState.stream = some true
      ∧ initGlobalStream GumOutcome.both streamingState = (streamingState, true))
    ∧ (streamingState.interval = true
      ∧ startGlobalStreaming streamingState = streamingState) :=
  ⟨⟨rfl, captureLoopSingleAcquisition.1 GumOutcome.both streamingState rfl⟩,
   ⟨rfl, captureLoopSingleAcquisition.2.1 streamingState rfl⟩⟩

/-- Claim C7: the degraded path `addVictim`, given only a bare user-agent
string (plus the ambient environment), installs as current profile a fully
populated record: every nested block is present and every field holds the
documented fallback value for the degraded path — none is left null or
undefined. -/
theorem degradedPathFullProfile (userAgent ip : String) (formData : Option FormData)
    (env : Env) (s : Srv) :
    ((addVictim userAgent ip formData env s).2).sessions.currentVictim = some
      { id := s.sessions.count + 1
        sessionId := env.sessionId
        timestamp := env.now
        name := jsOrUndef (formData.bind (fun f => f.name))
        phone := jsOrUndef (formData.bind (fun f => f.phone))
        email := jsOrUndef (formData.bind (fun f => f.email))
        device :=
          { type := deviceCatStr (parseDevice userAgent)
            os := "Unknown"
            osVersion := ""
            vendor := "Unknown"
            model := ""
            isMobile := parseDevice userAgent == DeviceCat.Android
                          || parseDevice userAgent == DeviceCat.iOS
            isTablet := false }
        browser :=
          { name := parseBrowser userAgent
            version := ""
            engine := ""
            userAgent := userAgent
            language := "en-US"
            languages := ["en-US"]
            cookiesEnabled := true
            doNotTrack := false
            platform := "Unknown" }
        display :=
          { screenWidth := 1920
            screenHeight := 1080
            viewportWidth := 1920
            viewportHeight := 1080
            colorDepth := 24
            pixelRatio := 1
            orientation := "landscape"
            touchSupport := false
            maxTouchPoints := 0 }
        network :=
          { connectionType := "4g"
            effectiveType := "4g"
            downlink := 10
            rtt := 50
            onLine := true }
        ipGeo := none
        locale :=
          { timezone := env.timezone
            timezoneOffset := env.timezoneOffset
            language := "en-US" }
        capabilities :=
          { webGL := true
            webGLVendor := ""
            webGLRenderer := ""
            canvas := true
            localStorage := true
            sessionStorage := true
            indexedDB := true
            serviceWorker := false
            webRTC := true
            geolocation := false
            notifications := false }
        hardware :=
          { cpuCores := 4
            deviceMemory := 8
            maxTouchPoints := 0 } } := rfl

/-- A successful ip-api.com response body with every field populated. -/
def geoOkResponse : GeoApiData :=
  { ok := true
    status := "success"
    query := some "203.0.113.9"
    country := some "India"
    countryCode := some "IN"
    region := some "WB"
    regionName := some "West Bengal"
    city := some "Kolkata"
    zip := some "700001"
    lat := some 22
    lon := some 88
    timezone := some "Asia/Kolkata"
    isp := some "ExampleNet"
    org := some "ExampleOrg"
    asField := some "AS0 Example"
    mobile := some false
    proxy := some false
    hosting := some false }

/-- Claim C8: the IP-geolocation enrichment is bounded by a 3000 ms timeout
and is best effort: the guarded private and loopback prefixes, a thrown or
timed-out fetch, a non-ok response and a non-success payload all yield an
absent `geoIP`; and `addVictimWithProfile` always completes with `ipGeo`
exactly the lookup's result, so a failed lookup can never fail the
profile-building operation. -/
theorem geoLookupBestEffort :
    ipGeoTimeoutMs = 3000
    ∧ (∀ (ip : String) (r : Option GeoApiData),
        isPrivateOrLoopbackIP ip = true → fetchIPGeolocation ip r = none)
    ∧ (∀ ip : String, fetchIPGeolocation ip none = none)
    ∧ (∀ (ip : String) (r : GeoApiData), r.ok = false →
        fetchIPGeolocation ip (some r) = none)
    ∧ (∀ (ip : String) (r : GeoApiData), r.status ≠ "success" →
        fetchIPGeolocation ip (some r) = none)
    ∧ (∀ (fp : Fingerprint) (ip : String) (fd : Option FormData) (env : Env)
        (geo : Option GeoApiData) (s : Srv),
        ((addVictimWithProfile fp ip fd env geo s).1).ipGeo
          = fetchIPGeolocation ip geo) := by
  refine ⟨rfl, ?_, ?_, ?_, ?_, ?_⟩
  · intro ip r h
    simp [fetchIPGeolocation, h]
  · intro ip
    unfold fetchIPGeolocation
    split <;> rfl
  · intro ip r h
    unfold fetchIPGeolocation
    split
    · rfl
    · simp [h]
  · intro ip r h
    unfold fetchIPGeolocation
    split
    · rfl
    · by_cases hok : r.ok <;> simp [hok, h]
  · intro fp ip fd env geo s
    rfl

/-- Witness for C8: the loopback address is skipped even when the oracle
would answer successfully, a failed fetch yields an absent field, and a
profile built over a failed lookup carries `ipGeo = none`. -/
theorem geoLookupBestEffort_witness :
    (isPrivateOrLoopbackIP "127.0.0.1" = true
      ∧ fetchIPGeolocation "127.0.0.1" (some geoOkResponse) = none)
    ∧ fetchIPGeolocation "203.0.113.9" none = none
    ∧ ((addVictimWithProfile
          { device := { type := "Android", os := "Android", osVersion := "14",
                        vendor := "Google", model := "Pixel", isMobile := true,
                        isTablet := false }
            browser := { name := "Chrome", version := "120", engine := "Blink",
                         userAgent := "Mozilla/5.0 (Linux; Android 14)",
                         language := "en-US", languages := ["en-US"],
                         cookiesEnabled := true, doNotTrack := false,
                         platform := "Linux armv8l" }
            display := { screenWidth := 1080, screenHeight := 2400,
                         viewportWidth := 1080, viewportHeight := 2210,
                         colorDepth := 24, pixelRatio := 3,
                         orientation := "portrait", touchSupport := true,
                         maxTouchPoints := 5 }
            network := { connectionType := "4g", effectiveType := "4g",
                         downlink := 10, rtt := 50, onLine := true }
            locale := { timezone := "Asia/Kolkata", timezoneOffset := -330,
                        language := "en-US" }
            capabilities := { webGL := true, webGLVendor := "ARM",
                              webGLRenderer := "Mali", canvas := true,
                              localStorage := true, sessionStorage := true,
                              indexedDB := true, serviceWorker := true,
                              webRTC := true, geolocation := true,
                              notifications := true }
            hardware := { cpuCores := 8, deviceMemory := 8, maxTouchPoints := 5 } }
          "203.0.113.9" none env0 none initialSrv).1).ipGeo = none :=
  ⟨⟨by decide, geoLookupBestEffort.2.1 "127.0.0.1" (some geoOkResponse) (by decide)⟩,
   geoLookupBestEffort.2.2.1 "203.0.113.9",
   by rw [geoLookupBestEffort.2.2.2.2.2]; exact geoLookupBestEffort.2.2.1 "203.0.113.9"⟩

-- ===================================
-- Shape lemmas for the registry mutators
-- ===================================

/-- The broker notification inside `notifyCurrentVictim` never touches the
registry. -/
theorem notifyCurrentVictim_sessions (s : Srv) :
    (notifyCurrentVictim s).sessions = s.sessions := by
  unfold notifyCurrentVictim notifyClients
  split <;> rfl

/-- The extended path bumps the submission counter exactly once. -/
theorem addVWP_count (fp : Fingerprint) (ip : String) (fd : Option FormData)
    (env : Env) (geo : Option GeoApiData) (s : Srv) :
    (addVictimWithProfile fp ip fd env geo s).2.sessions.count
      = s.sessions.count + 1 := by
  simp only [addVictimWithProfile]
  split_ifs <;> rfl

/-- The extended path sets the breakdown once, keyed by the fingerprint's
device type, and eviction never touches it again. -/
theorem addVWP_breakdown (fp : Fingerprint) (ip : String) (fd : Option FormData)
    (env : Env) (geo : Option GeoApiData) (s : Srv) :
    (addVictimWithProfile fp ip fd env geo s).2.sessions.deviceBreakdown
      = incBreakdownKey s.sessions.deviceBreakdown fp.device.type := by
  simp only [addVictimWithProfile]
  split_ifs <;> rfl

/-- Profile history length after one extended submission: grow by one, capped
at the 100-entry bound by evicting the oldest. -/
theorem addVWP_profiles_length (fp : Fingerprint) (ip : String)
    (fd : Option FormData) (env : Env) (geo : Option GeoApiData) (s : Srv)
    (h : s.sessions.profiles.length ≤ 100) :
    (addVictimWithProfile fp ip fd env geo s).2.sessions.profiles.length
      = min (s.sessions.profiles.length + 1) 100 := by
  simp only [addVictimWithProfile]
  split_ifs <;> simp_all [List.length_append] <;> omega

/-- Every profile retained after one extended submission either was already
retained or is the newly built profile, whose device type is the
fingerprint's. -/
theorem addVWP_profiles_mem (fp : Fingerprint) (ip : String)
    (fd : Option FormData) (env : Env) (geo : Option GeoApiData) (s : Srv)
    (p : VictimProfile)
    (hp : p ∈ (addVictimWithProfile fp ip fd env geo s).2.sessions.profiles) :
    p ∈ s.sessions.profiles ∨ p.device.type = fp.device.type := by
  simp only [addVictimWithProfile] at hp
  split_ifs at hp <;>
    [skip; skip; skip; skip] <;>
    (first
      | (rcases List.mem_append.mp (List.mem_of_mem_tail hp) with hmem | hnew
         · exact Or.inl hmem
         · rcases List.mem_singleton.mp hnew with rfl
           exact Or.inr rfl)
      | (rcases List.mem_append.mp hp with hmem | hnew
         · exact Or.inl hmem
         · rcases List.mem_singleton.mp hnew with rfl
           exact Or.inr rfl))

/-- Legacy victim history length after one extended submission. -/
theorem addVWP_victims_length (fp : Fingerprint) (ip : String)
    (fd : Option FormData) (env : Env) (geo : Option GeoApiData) (s : Srv)
    (h : s.sessions.victims.length ≤ 100) :
    (addVictimWithProfile fp ip fd env geo s).2.sessions.victims.length
      = min (s.sessions.victims.length + 1) 100 := by
  simp only [addVictimWithProfile]
  split_ifs <;> simp_all [List.length_append] <;> omega

/-- The current-profile pointer after one extended submission carries the
freshly assigned id. -/
theorem addVWP_currentVictim (fp : Fingerprint) (ip : String)
    (fd : Option FormData) (env : Env) (geo : Option GeoApiData) (s : Srv)
    (cv : VictimProfile)
    (h : (addVictimWithProfile fp ip fd env geo s).2.sessions.currentVictim = some cv) :
    cv.id = s.sessions.count + 1 := by
  simp only [addVictimWithProfile] at h
  split_ifs at h <;> (rw [Option.some.injEq] at h; subst h; rfl)

/-- The legacy path bumps the submission counter exactly once. -/
theorem addVictim_count (ua ip : String) (fd : Option FormData) (env : Env)
    (s : Srv) :
    (addVictim ua ip fd env s).2.sessions.count = s.sessions.count + 1 := by
  simp only [addVictim, notifyCurrentVictim_sessions]
  cases hv : s.sessions.victims <;> split_ifs <;> rfl

/-- The legacy path never touches the profile history. -/
theorem addVictim_profiles (ua ip : String) (fd : Option FormData) (env : Env)
    (s : Srv) :
    (addVictim ua ip fd env s).2.sessions.profiles = s.sessions.profiles := by
  simp only [addVictim, notifyCurrentVictim_sessions]
  cases hv : s.sessions.victims <;> split_ifs <;> rfl

/-- Legacy victim history length after one legacy submission. -/
theorem addVictim_victims_length (ua ip : String) (fd : Option FormData)
    (env : Env) (s : Srv) (h : s.sessions.victims.length ≤ 100) :
    (addVictim ua ip fd env s).2.sessions.victims.length
      = min (s.sessions.victims.length + 1) 100 := by
  simp only [addVictim, notifyCurrentVictim_sessions]
  cases hv : s.sessions.victims <;> split_ifs <;>
    simp_all [List.length_append] <;> omega

/-- The current-profile pointer after one legacy submission carries the
freshly assigned id. -/
theorem addVictim_currentVictim (ua ip : String) (fd : Option FormData)
    (env : Env) (s : Srv) (cv : VictimProfile)
    (h : (addVictim ua ip fd env s).2.sessions.currentVictim = some cv) :
    cv.id = s.sessions.count + 1 := by
  simp only [addVictim, notifyCurrentVictim_sessions] at h
  rw [Option.some.injEq] at h
  subst h
  rfl

-- ===================================
-- Iterated Android submissions (for the counter-drift analysis)
-- ===================================

/-- A structured snapshot reporting device type `Android`. -/
def androidFingerprint : Fingerprint :=
  { device := { type := "Android", os := "Android", osVersion := "14",
                vendor := "Google", model := "Pixel 8", isMobile := true,
                isTablet := false }
    browser := { name := "Chrome", version := "120", engine := "Blink",
                 userAgent := "Mozilla/5.0 (Linux; Android 14)",
                 language := "en-US", languages := ["en-US"],
                 cookiesEnabled := true, doNotTrack := false,
                 platform := "Linux armv8l" }
    display := { screenWidth := 1080, screenHeight := 2400,
                 viewportWidth := 1080, viewportHeight := 2210,
                 colorDepth := 24, pixelRatio := 3, orientation := "portrait",
                 touchSupport := true, maxTouchPoints := 5 }
    network := { connectionType := "4g", effectiveType := "4g",
                 downlink := 10, rtt := 50, onLine := true }
    locale := { timezone := "Asia/Kolkata", timezoneOffset := -330,
                language := "en-US" }
    capabilities := { webGL := true, webGLVendor := "ARM",
                      webGLRenderer := "Mali", canvas := true,
                      localStorage := true, sessionStorage := true,
                      indexedDB := true, serviceWorker := true, webRTC := true,
                      geolocation := true, notifications := true }
    hardware := { cpuCores := 8, deviceMemory := 8, maxTouchPoints := 5 } }

/-- One accepted extended submission of an Android profile. -/
def androidSubmit : SubmitOp :=
  .extended androidFingerprint "Unknown" none env0 none

/-- Effect of `n` consecutive Android profile submissions: the `Android`
counter grows by `n` unconditionally while the retained profile history is
capped at 100 entries, all of them Android. -/
theorem android_run (n : Nat) (s : Srv)
    (hlen : s.sessions.profiles.length ≤ 100)
    (htype : ∀ p ∈ s.sessions.profiles, p.device.type = "Android") :
    ((List.replicate n androidSubmit).foldl submitStep s).sessions.deviceBreakdown.Android
        = s.sessions.deviceBreakdown.Android + n
    ∧ ((List.replicate n androidSubmit).foldl submitStep s).sessions.profiles.length
        = min (s.sessions.profiles.length + n) 100
    ∧ ∀ p ∈ ((List.replicate n androidSubmit).foldl submitStep s).sessions.profiles,
        p.device.type = "Android" := by
  induction n generalizing s with
  | zero =>
      refine ⟨by simp, by simp; omega, by simpa using htype⟩
  | succ n ih =>
      rw [List.replicate_succ, List.foldl_cons]
      have hstep : submitStep s androidSubmit
          = (addVictimWithProfile androidFingerprint "Unknown" none env0 none s).2 := rfl
      have hbd : (submitStep s androidSubmit).sessions.deviceBreakdown.Android
          = s.sessions.deviceBreakdown.Android + 1 := by
        rw [hstep, addVWP_breakdown]
        rfl
      have hpl : (submitStep s androidSubmit).sessions.profiles.length
          = min (s.sessions.profiles.length + 1) 100 := by
        rw [hstep]
        exact addVWP_profiles_length _ _ _ _ _ _ hlen
      have hty : ∀ p ∈ (submitStep s androidSubmit).sessions.profiles,
          p.device.type = "Android" := by
        intro p hp
        rw [hstep] at hp
        rcases addVWP_profiles_mem _ _ _ _ _ _ _ hp with hmem | hnew
        · exact htype p hmem
        · exact hnew
      obtain ⟨ih1, ih2, ih3⟩ := ih (submitStep s androidSubmit)
        (by rw [hpl]; omega) hty
      refine ⟨?_, ?_, ih3⟩
      · rw [ih1, hbd]
        push_cast
        ring
      · rw [ih2, hpl]
        omega

/-- Claim C2 (code bug): after 101 accepted Android profile submissions
through `addVictimWithProfile`, the `Android` breakdown counter reads 101
while only 100 Android profiles are retained in history — the extended path's
eviction (src/lib/sessions.ts lines 369-371) drops the oldest profile without
decrementing its category counter, unlike the legacy path (lines 418-421), so
the counter-equals-retained-history invariant the claim states is violated. -/
theorem extendedEvictionCounterDrift :
    (runSubmits (List.replicate 101 androidSubmit)).sessions.deviceBreakdown.Android = 101
    ∧ (runSubmits (List.replicate 101 androidSubmit)).sessions.profiles.countP
        (fun p => p.device.type == "Android") = 100
    ∧ (runSubmits (List.replicate 101 androidSubmit)).sessions.profiles.length = 100 := by
  obtain ⟨h1, h2, h3⟩ := android_run 101 initialSrv (by simp [initialSrv, defaultSessions])
    (by simp [initialSrv, defaultSessions])
  have hcount : (runSubmits (List.replicate 101 androidSubmit)).sessions.profiles.countP
      (fun p => p.device.type == "Android")
      = (runSubmits (List.replicate 101 androidSubmit)).sessions.profiles.length := by
    apply List.countP_eq_length.mpr
    intro p hp
    simpa using h3 p hp
  have hlen : (runSubmits (List.replicate 101 androidSubmit)).sessions.profiles.length = 100 := by
    rw [show runSubmits (List.replicate 101 androidSubmit)
          = (List.replicate 101 androidSubmit).foldl submitStep initialSrv from rfl, h2]
    simp [initialSrv, defaultSessions]
  refine ⟨?_, by rw [hcount, hlen], hlen⟩
  rw [show runSubmits (List.replicate 101 androidSubmit)
        = (List.replicate 101 androidSubmit).foldl submitStep initialSrv from rfl, h1]
  simp [initialSrv, defaultSessions]

-- ===================================
-- Registry invariant over submission sequences
-- ===================================

/-- Registry invariant: the victim history tracks the submission counter up
to the 100-entry cap, the profile history never outgrows it, and the current
profile (once set) carries the latest assigned id. -/
def registryInv (s : Srv) : Prop :=
  s.sessions.victims.length = min s.sessions.count 100
  ∧ s.sessions.profiles.length ≤ s.sessions.victims.length
  ∧ ∀ cv, s.sessions.currentVictim = some cv → cv.id = s.sessions.count

/-- One accepted submission of either kind preserves the registry invariant
and bumps the counter by exactly one. -/
theorem submitStep_inv (s : Srv) (op : SubmitOp) (h : registryInv s) :
    registryInv (submitStep s op)
    ∧ (submitStep s op).sessions.count = s.sessions.count + 1 := by
  obtain ⟨h1, h2, h3⟩ := h
  have hv100 : s.sessions.victims.length ≤ 100 := by omega
  have hp100 : s.sessions.profiles.length ≤ 100 := by omega
  cases op with
  | extended fp ip fd env geo =>
      have hc := addVWP_count fp ip fd env geo s
      have hvl := addVWP_victims_length fp ip fd env geo s hv100
      have hpl := addVWP_profiles_length fp ip fd env geo s hp100
      refine ⟨⟨?_, ?_, ?_⟩, hc⟩
      · show (submitStep s (.extended fp ip fd env geo)).sessions.victims.length = _
        rw [show (submitStep s (.extended fp ip fd env geo)).sessions
              = (addVictimWithProfile fp ip fd env geo s).2.sessions from rfl,
            hvl, hc, h1]
        omega
      · rw [show (submitStep s (.extended fp ip fd env geo)).sessions
              = (addVictimWithProfile fp ip fd env geo s).2.sessions from rfl,
            hvl, hpl]
        omega
      · intro cv hcv
        rw [show (submitStep s (.extended fp ip fd env geo)).sessions
              = (addVictimWithProfile fp ip fd env geo s).2.sessions from rfl] at hcv
        rw [show (submitStep s (.extended fp ip fd env geo)).sessions
              = (addVictimWithProfile fp ip fd env geo s).2.sessions from rfl, hc]
        exact addVWP_currentVictim fp ip fd env geo s cv hcv
  | legacy ua ip fd env =>
      have hc := addVictim_count ua ip fd env s
      have hvl := addVictim_victims_length ua ip fd env s hv100
      have hpl := addVictim_profiles ua ip fd env s
      refine ⟨⟨?_, ?_, ?_⟩, hc⟩
      · rw [show (submitStep s (.legacy ua ip fd env)).sessions
              = (addVictim ua ip fd env s).2.sessions from rfl, hvl, hc, h1]
        omega
      · rw [show (submitStep s (.legacy ua ip fd env)).sessions
              = (addVictim ua ip fd env s).2.sessions from rfl, hvl, hpl]
        omega
      · intro cv hcv
        rw [show (submitStep s (.legacy ua ip fd env)).sessions
              = (addVictim ua ip fd env s).2.sessions from rfl] at hcv
        rw [show (submitStep s (.legacy ua ip fd env)).sessions
              = (addVictim ua ip fd env s).2.sessions from rfl, hc]
        exact addVictim_currentVictim ua ip fd env s cv hcv

/-- Over any submission sequence from process start, the invariant holds and
the counter equals the number of accepted submissions. -/
theorem runSubmits_inv (ops : List SubmitOp) :
    registryInv (runSubmits ops)
    ∧ (runSubmits ops).sessions.count = ops.length := by
  suffices h : ∀ s, registryInv s →
      registryInv (ops.foldl submitStep s)
      ∧ (ops.foldl submitStep s).sessions.count = s.sessions.count + ops.length by
    have h0 : registryInv initialSrv :=
      ⟨by simp [initialSrv, defaultSessions], by simp [initialSrv, defaultSessions],
       by intro cv hcv; simp [initialSrv, defaultSessions] at hcv⟩
    have := h initialSrv h0
    exact ⟨this.1, by simpa [initialSrv, defaultSessions, runSubmits] using this.2⟩
  induction ops with
  | nil => intro s hs; simpa using hs
  | cons op rest ih =>
      intro s hs
      rw [List.foldl_cons]
      obtain ⟨hinv, hcount⟩ := submitStep_inv s op hs
      obtain ⟨hinv2, hcount2⟩ := ih (submitStep s op) hinv
      refine ⟨hinv2, ?_⟩
      rw [hcount2, hcount]
      simp
      omega

/-- Claim C10: after any sequence of `k` accepted submissions since the last
reset, the `count` reported by `getStats` and by `GET /api/stats` equals `k`;
the current (most recently accepted) profile's id equals `count`; and since
`count` is never decremented on eviction, once more than 100 submissions are
accepted `count` strictly exceeds the lengths of both retained histories. -/
theorem statsCountTracksSubmissions (ops : List SubmitOp) :
    (runSubmits ops).sessions.count = ops.length
    ∧ (getStats (runSubmits ops)).count = ops.length
    ∧ (statsGET (runSubmits ops)).count = ops.length
    ∧ (∀ cv, (runSubmits ops).sessions.currentVictim = some cv → cv.id = ops.length)
    ∧ (100 < ops.length →
        (runSubmits ops).sessions.victims.length < (runSubmits ops).sessions.count
        ∧ (runSubmits ops).sessions.profiles.length < (runSubmits ops).sessions.count) := by
  obtain ⟨⟨hv, hp, hcv⟩, hc⟩ := runSubmits_inv ops
  refine ⟨hc, hc, hc, ?_, ?_⟩
  · intro cv h
    rw [← hc]
    exact hcv cv h
  · intro hbig
    constructor
    · rw [hv, hc]
      omega
    · rw [hc]
      rw [hv, hc] at hp
      omega

/-- A legacy submission with fixed concrete inputs. -/
def legacySubmit : SubmitOp :=
  .legacy "Mozilla/5.0 (Linux; Android 14)" "203.0.113.9" none env0

/-- Witness for C10: past the 101st accepted submission the counter strictly
exceeds both retained history lengths. -/
theorem statsCountTracksSubmissions_witness :
    100 < (List.replicate 101 legacySubmit).length
    ∧ ((runSubmits (List.replicate 101 legacySubmit)).sessions.victims.length
         < (runSubmits (List.replicate 101 legacySubmit)).sessions.count
       ∧ (runSubmits (List.replicate 101 legacySubmit)).sessions.profiles.length
         < (runSubmits (List.replicate 101 legacySubmit)).sessions.count) :=
  ⟨by simp,
   (statsCountTracksSubmissions (List.replicate 101 legacySubmit)).2.2.2.2 (by simp)⟩

end Siren
